import Mathlib

/-!
Shallow embedding, in Lean 4, of the style-and-layout resolution engine of a
spreadsheet viewer.  The JavaScript source keeps numbers as IEEE doubles; the
embedding idealises them as exact rationals (`ℚ`), the standard idealisation
for a shallow embedding.  XML DOM access is modelled by passing the already
extracted attribute values (`Option String`) and child structures explicitly.

Batteries marks the arithmetic on `Rat` `@[irreducible]`, which blocks kernel
evaluation of concrete rational computations inside `decide`; the development
only needs them to be evaluable, so they are restored to `semireducible`.
-/

set_option allowUnsafeReducibility true in
attribute [semireducible] Rat.mul Rat.add Rat.sub Rat.inv Rat.ofScientific

namespace Office

/-! ## Generic JavaScript-semantics helpers -/

/-- Leading decimal digits of a character list; `none` when the first
character is not a digit (modelling a `NaN` result). -/
def parseDigits (l : List Char) : Option Nat :=
  let ds := l.takeWhile (fun c => c.isDigit)
  if ds.isEmpty then none
  else some (ds.foldl (fun a c => a * 10 + (c.toNat - 48)) 0)

/-- Model of JavaScript `parseInt(s)` with no radix argument on decimal
input: an optional sign followed by leading decimal digits; `none` models
`NaN` (trailing garbage is ignored, as in JavaScript). -/
def jsParseInt (s : String) : Option Int :=
  match s.data with
  | '-' :: rest => (parseDigits rest).map (fun n => -(n : Int))
  | '+' :: rest => (parseDigits rest).map (fun n => (n : Int))
  | l => (parseDigits l).map (fun n => (n : Int))

/-- JavaScript string truthiness: the empty string is falsy. -/
def jsStrTruthy : Option String → Option String
  | some s => if s = "" then none else some s
  | none => none

/-- JavaScript `a || b` on two optional strings (empty string is falsy). -/
def jsOrStr (a b : Option String) : Option String :=
  match jsStrTruthy a with
  | some s => some s
  | none => jsStrTruthy b

/-- Whether the string contains the given character. -/
def containsChar (s : String) (c : Char) : Bool :=
  s.data.any (fun x => x == c)

/-! ## Color resolution (source: `resolveColor`, `applyTint`, `DEFAULT_THEME`) -/

/-- A parsed `<color>` element: the source represents it as a plain object
whose fields `argb`, `theme`, `tint`, `indexed` may each be absent. -/
structure ColorObj where
  argb : Option String := none
  theme : Option Nat := none
  tint : Option ℚ := none
  indexed : Option Nat := none
deriving DecidableEq

/-- The built-in 12-slot theme palette `DEFAULT_THEME` of the source. -/
def DEFAULT_THEME (slot : Nat) : Option String :=
  [ "FFFFFF", "000000", "E7E6E6", "44546A", "4472C4", "ED7D31",
    "A5A5A5", "FFC000", "5B9BD5", "70AD47", "0563C1", "954F72" ].get? slot

/-- The fixed 64-entry legacy indexed palette hard-coded in `resolveColor`. -/
def legacyPalette : List String :=
  [ "#000000", "#FFFFFF", "#FF0000", "#00FF00", "#0000FF", "#FFFF00", "#FF00FF", "#00FFFF",
    "#000000", "#FFFFFF", "#FF0000", "#00FF00", "#0000FF", "#FFFF00", "#FF00FF", "#00FFFF",
    "#800000", "#008000", "#000080", "#808000", "#800080", "#008080", "#C0C0C0", "#808080",
    "#9999FF", "#993366", "#FFFFCC", "#CCFFFF", "#660066", "#FF8080", "#0066CC", "#CCCCFF",
    "#000080", "#FF00FF", "#FFFF00", "#00FFFF", "#800080", "#800000", "#008080", "#0000FF",
    "#00CCFF", "#CCFFFF", "#CCFFCC", "#FFFF99", "#99CCFF", "#FF99CC", "#CC99FF", "#FFCC99",
    "#3366FF", "#33CCCC", "#99CC00", "#FFCC00", "#FF9900", "#FF6600", "#666699", "#969696",
    "#003366", "#339966", "#003300", "#333300", "#993300", "#993366", "#333399", "#333333" ]

/-- Value of one hexadecimal digit (0 for characters that are not hex
digits; the source only feeds well-formed 6-digit hex colors here). -/
def hexDigitVal (c : Char) : Nat :=
  if c.isDigit then c.toNat - 48
  else if 'a' ≤ c ∧ c ≤ 'f' then c.toNat - 87
  else if 'A' ≤ c ∧ c ≤ 'F' then c.toNat - 55
  else 0

/-- `parseInt(hex.substring(i, i+2), 16)` on a two-character slice. -/
def parseHex2 (a b : Char) : Nat :=
  16 * hexDigitVal a + hexDigitVal b

/-- Model of JavaScript `Math.round` (round half toward positive infinity). -/
def jsRound (x : ℚ) : ℤ := ⌊x + 1/2⌋

/-- `Math.round(n * 255).toString(16).padStart(2, '0')` — the `toHex`
closure of `applyTint`.  Negative rounds (impossible for in-range inputs)
are clamped to 0 so that a digit string is always produced. -/
def toHex2 (x : ℚ) : String :=
  let n := (jsRound (x * 255)).toNat
  let s := String.mk (Nat.toDigits 16 n)
  if s.length < 2 then "0" ++ s else s

/-- The `hue2rgb` closure of `applyTint`. -/
def hue2rgb (p q t0 : ℚ) : ℚ :=
  let t1 := if t0 < 0 then t0 + 1 else t0
  let t := if t1 > 1 then t1 - 1 else t1
  if t < 1/6 then p + (q - p) * 6 * t
  else if t < 1/2 then q
  else if t < 2/3 then p + (q - p) * (2/3 - t) * 6
  else p

/-- Source `applyTint`: hex RGB → HSL, adjust lightness by the tint,
clamp, convert back.  `hexColor.replace('#','')` removes the leading `#`. -/
def applyTint (hexColor : String) (tint : ℚ) : String :=
  let hx := match hexColor.data with
            | '#' :: r => r
            | r => r
  let r : ℚ := (parseHex2 (hx.getD 0 '0') (hx.getD 1 '0') : Nat)
  let g : ℚ := (parseHex2 (hx.getD 2 '0') (hx.getD 3 '0') : Nat)
  let b : ℚ := (parseHex2 (hx.getD 4 '0') (hx.getD 5 '0') : Nat)
  let rn := r / 255
  let gn := g / 255
  let bn := b / 255
  let mx := max rn (max gn bn)
  let mn := min rn (min gn bn)
  let l0 := (mx + mn) / 2
  let hs : ℚ × ℚ :=
    if mx = mn then (0, 0)
    else
      let d := mx - mn
      let s := if l0 > 1/2 then d / (2 - mx - mn) else d / (mx + mn)
      let h :=
        if mx = rn then ((gn - bn) / d + (if gn < bn then 6 else 0)) / 6
        else if mx = gn then ((bn - rn) / d + 2) / 6
        else ((rn - gn) / d + 4) / 6
      (h, s)
  let h := hs.1
  let s := hs.2
  let l1 := if tint < 0 then l0 * (1 + tint) else l0 * (1 - tint) + tint
  let l : ℚ := max 0 (min 1 l1)
  let rgb : ℚ × ℚ × ℚ :=
    if s = 0 then (l, l, l)
    else
      let q := if l < 1/2 then l * (1 + s) else l + s - l * s
      let p := 2 * l - q
      (hue2rgb p q (h + 1/3), hue2rgb p q h, hue2rgb p q (h - 1/3))
  "#" ++ toHex2 rgb.1 ++ toHex2 rgb.2.1 ++ toHex2 rgb.2.2

/-- The indexed-palette tail of `resolveColor`:
`colors[colorObj.indexed] || null` (every in-range entry is non-empty, so
only an out-of-range index produces `null`). -/
def indexedLookup (co : ColorObj) : Option String :=
  match co.indexed with
  | some i => legacyPalette.get? i
  | none => none

/-- Source `resolveColor(colorObj)`: `argb` first (strip the alpha byte of
an 8-digit value), then `theme` (+ optional tint; a theme slot with no base
color falls through), then `indexed`, else `null`.  The global mutable
`themeColors` table is passed explicitly. -/
def resolveColor (themeColors : Nat → Option String) (colorObj : Option ColorObj) :
    Option String :=
  match colorObj with
  | none => none
  | some co =>
    match jsStrTruthy co.argb with
    | some argb =>
      if argb.length = 8 then some ("#" ++ argb.drop 2)
      else some ("#" ++ argb)
    | none =>
      let themed : Option String :=
        match co.theme with
        | some t =>
          match jsOrStr (themeColors t) (DEFAULT_THEME t) with
          | some baseColor =>
            let color := "#" ++ baseColor
            some (match co.tint with
                  | some tn => if tn ≠ 0 then applyTint color tn else color
                  | none => color)
          | none => none
        | none => none
      match themed with
      | some c => some c
      | none => indexedLookup co

/-! ## Style tables (source: `parseStyles`) -/

/-- A parsed `<alignment>` element (source `parseStyles`): attribute reads
with `parseInt(...) || 0` defaults for the numeric fields and
`=== 'true' || === '1'` for the boolean ones. -/
structure Alignment where
  horizontal : Option String := none
  vertical : Option String := none
  wrapText : Bool := false
  shrinkToFit : Bool := false
  textRotation : Int := 0
  indent : Int := 0
deriving DecidableEq

/-- An entry of `cellStyleXfs` (base styles): only the alignment is read. -/
structure BaseXf where
  alignment : Option Alignment := none
deriving DecidableEq

/-- An entry of `cellXfs` (applied cell formats). `xfId` is `null` when the
attribute is absent, `applyAlignment` is the raw attribute string. -/
structure Xf where
  fontId : Nat := 0
  fillId : Nat := 0
  borderId : Nat := 0
  numFmtId : Nat := 0
  xfId : Option Nat := none
  applyAlignment : Option String := none
  alignment : Option Alignment := none
deriving DecidableEq

/-- The per-format body of the source's post-pass over `cellXfs` (end of
`parseStyles`): `applyAlignment === '0'` forces the alignment to `null`;
otherwise a format without its own alignment copies
`baseCellXfs[style.xfId].alignment || null` when that base entry exists. -/
def mergeBaseAlignment (baseCellXfs : List BaseXf) (style : Xf) : Xf :=
  if style.applyAlignment = some "0" then { style with alignment := none }
  else if style.alignment = none then
    match style.xfId with
    | some id =>
      match baseCellXfs.get? id with
      | some base => { style with alignment := base.alignment }
      | none => style
    | none => style
  else style

/-- The whole post-pass: `cellXfs.forEach(...)` applying
`mergeBaseAlignment` to every applied format once both tables exist. -/
def applyAlignmentInheritance (baseCellXfs : List BaseXf) (cellXfs : List Xf) : List Xf :=
  cellXfs.map (mergeBaseAlignment baseCellXfs)

/-! ## Cell style cascade (source: `resolveStyleIndex` in `renderSheet`) -/

/-- Source `resolveStyleIndex(r, c)`: cell-level entry first, then the
row-level entry, then the column-level entry, else `null`.  The three maps
built from the worksheet XML are passed explicitly. -/
def resolveStyleIndex (cellStyleMap : Nat × Nat → Option Nat)
    (rowStyleMap : Nat → Option Nat) (colStyles : Nat → Option Nat)
    (r c : Nat) : Option Nat :=
  match cellStyleMap (r, c) with
  | some i => some i
  | none =>
    match rowStyleMap r with
    | some i => some i
    | none =>
      match colStyles c with
      | some i => some i
      | none => none

/-! ## Column width (source: `calcColumnWidthPx`) -/

/-- Source `calcColumnWidthPx(excelWidth)` for a finite width: `mdw` is the
module-level `currentMDW` (`|| 7` when it is 0), a non-positive width gives
0 pixels, otherwise
`Math.floor(((256*w + Math.floor(128/mdw))/256)*mdw) + 5`. -/
def calcColumnWidthPx (currentMDW : ℚ) (excelWidth : ℚ) : ℤ :=
  let mdw : ℚ := if currentMDW = 0 then 7 else currentMDW
  if excelWidth ≤ 0 then 0
  else ⌊((256 * excelWidth + (⌊(128 : ℚ) / mdw⌋ : ℚ)) / 256) * mdw⌋ + 5

/-! ## Number formatting (source: `formatNumber`) -/

/-- The `builtIn` table hard-coded inside `formatNumber`. -/
def builtInFmt (fmtId : Nat) : Option String :=
  if fmtId = 0 then some "General"
  else if fmtId = 1 then some "0"
  else if fmtId = 2 then some "0.00"
  else if fmtId = 3 then some "#,##0"
  else if fmtId = 4 then some "#,##0.00"
  else if fmtId = 9 then some "0%"
  else if fmtId = 10 then some "0.00%"
  else if fmtId = 14 then some "yyyy/m/d"
  else if fmtId = 22 then some "yyyy/m/d h:mm"
  else none

/-- `numFmts[fmtId] || builtIn[fmtId] || 'General'`: the custom table entry
when present (and truthy), else the built-in entry, else `"General"`.  A
`none` id models `formatNumber(v, null)`. -/
def resolveFmtCode (numFmts : Nat → Option String) (fmtId : Option Nat) : String :=
  match fmtId with
  | none => "General"
  | some i =>
    match jsOrStr (numFmts i) (builtInFmt i) with
    | some s => s
    | none => "General"

/-- The date-format test `/[ymd]/i.test(fmt)`. -/
def hasYMD (fmt : String) : Bool :=
  fmt.data.any (fun c =>
    c == 'y' || c == 'm' || c == 'd' || c == 'Y' || c == 'M' || c == 'D')

/-- `(fmt.match(/0/g) || []).length`: the number of literal `0` characters. -/
def countZeros (fmt : String) : Nat :=
  (fmt.data.filter (fun c => c == '0')).length

/-- Length of the first match of `/\.0+/` in the character list (a dot
followed by its maximal run of at least one `0`); 0 when there is none. -/
def dotZeroRunAux : List Char → Nat
  | [] => 0
  | '.' :: rest =>
    let z := (rest.takeWhile (fun c => c == '0')).length
    if z > 0 then z + 1 else dotZeroRunAux rest
  | _ :: rest => dotZeroRunAux rest

/-- `(fmt.match(/\.0+/) || [''])[0].length`, i.e. 0 when no match. -/
def dotZeroRunLen (fmt : String) : Nat := dotZeroRunAux fmt.data

/-- Left-pad a digit string with `0` up to the given length. -/
def padZeros (s : String) (len : Nat) : String :=
  if s.length < len then String.mk (List.replicate (len - s.length) '0') ++ s else s

/-- Model of `Number.prototype.toFixed(f)` for an exact rational in the
plain (non-exponential) range: the sign of `x`, then `|x|` rounded to `f`
fractional digits picking the larger candidate on ties, per ECMA-262. -/
def toFixed (x : ℚ) (f : Nat) : String :=
  let sign := if x < 0 then "-" else ""
  let n : Nat := (⌊|x| * (10 : ℚ) ^ f + 1/2⌋).toNat
  if f = 0 then sign ++ toString n
  else
    let s := padZeros (toString n) (f + 1)
    sign ++ s.take (s.length - f) ++ "." ++ s.drop (s.length - f)

/-- Insert a `,` after every three characters of a reversed digit list. -/
def groupThousandsRev : List Char → List Char
  | a :: b :: c :: d :: rest => a :: b :: c :: ',' :: groupThousandsRev (d :: rest)
  | l => l

/-- Group an integer digit string into threes with `,`, from the right. -/
def groupThousands (s : String) : String :=
  String.mk (groupThousandsRev s.data.reverse).reverse

/-- Model of `value.toLocaleString('zh-CN', {minimumFractionDigits: d,
maximumFractionDigits: d})`: exactly `d` fractional digits (rounded half
away from zero, the Intl default) and `,`-grouping of the integer part. -/
def toLocaleStringGrouped (x : ℚ) (dec : Nat) : String :=
  let sign := if x < 0 then "-" else ""
  let n : Nat := (⌊|x| * (10 : ℚ) ^ dec + 1/2⌋).toNat
  let s := padZeros (toString n) (dec + 1)
  let ip := s.take (s.length - dec)
  let fp := s.drop (s.length - dec)
  sign ++ groupThousands ip ++ (if dec = 0 then "" else "." ++ fp)

/-- Proleptic-Gregorian civil date `(year, month, day)` of a day count
relative to 1970-01-01 (Howard Hinnant's `civil_from_days`, written with
Euclidean division, which is floor division for positive divisors). -/
def civilFromDays (z0 : ℤ) : ℤ × ℤ × ℤ :=
  let z := z0 + 719468
  let era := Int.ediv z 146097
  let doe := z - era * 146097
  let yoe := Int.ediv (doe - Int.ediv doe 1460 + Int.ediv doe 36524 - Int.ediv doe 146096) 365
  let y := yoe + era * 400
  let doy := doe - (365 * yoe + Int.ediv yoe 4 - Int.ediv yoe 100)
  let mp := Int.ediv (5 * doy + 2) 153
  let d := doy - Int.ediv (153 * mp + 2) 5 + 1
  let m := mp + (if mp < 10 then 3 else -9)
  (y + (if m ≤ 2 then 1 else 0), m, d)

/-- Model of `new Date(ms).toLocaleDateString('zh-CN')` for a timestamp in
the valid range, rendered at UTC (the zh-CN form `year/month/day` with no
zero padding): ECMA-262 truncates `ms` toward zero, the date fields come
from `floor(t / 86400000)` days since the epoch. -/
def jsToLocaleDateZhCN (ms : ℚ) : String :=
  let t : ℤ := if ms < 0 then -⌊-ms⌋ else ⌊ms⌋
  let days : ℤ := Int.ediv t 86400000
  let ymd := civilFromDays days
  toString ymd.1 ++ "/" ++ toString ymd.2.1 ++ "/" ++ toString ymd.2.2

/-- Multiply a rational by an integer power of ten. -/
def mulPow10 (y : ℚ) (k : ℤ) : ℚ :=
  if 0 ≤ k then y * (10 : ℚ) ^ k.toNat else y / (10 : ℚ) ^ (-k).toNat

/-- For `y > 0`, the unique `e` with `10^(e-1) ≤ y < 10^e`, computed from
the decimal digit counts of numerator and denominator. -/
def ratPow10Exp (y : ℚ) : ℤ :=
  let da := (Nat.toDigits 10 y.num.natAbs).length
  let dd := (Nat.toDigits 10 y.den).length
  let e0 : ℤ := (da : ℤ) - (dd : ℤ)
  if mulPow10 y (-e0) < 1 then e0 else e0 + 1

/-- Strip trailing `0` characters. -/
def stripTrailingZeros (s : String) : String :=
  String.mk (s.data.reverse.dropWhile (fun c => c == '0')).reverse

/-- Model of `parseFloat(value.toPrecision(10)).toString()` (the final
`formatNumber` branch, reached only for non-integers) in the plain decimal
range: round to 10 significant digits, ties to the larger candidate, and
print with trailing fractional zeros removed. -/
def generalRender (x : ℚ) : String :=
  if x = 0 then "0"
  else
    let sign := if x < 0 then "-" else ""
    let y := |x|
    let e1 := ratPow10Exp y
    let n1 : Nat := (⌊mulPow10 y (10 - e1) + 1/2⌋).toNat
    let overflow : Bool := decide (10 ^ 10 ≤ n1)
    let n := if overflow then n1 / 10 else n1
    let e := if overflow then e1 + 1 else e1
    let ds := toString n
    if 10 ≤ e then sign ++ ds ++ String.mk (List.replicate (e - 10).toNat '0')
    else if 1 ≤ e then
      let ip := ds.take e.toNat
      let fp := stripTrailingZeros (ds.drop e.toNat)
      sign ++ ip ++ (if fp = "" then "" else "." ++ fp)
    else
      let fp := stripTrailingZeros (String.mk (List.replicate (-e).toNat '0') ++ ds)
      sign ++ "0." ++ fp

/-- Source `formatNumber(value, fmtId)`.  The branches mirror the source's
rule ladder: resolve the code, then date (only when `new Date` yields a
valid date, i.e. the timestamp is within ±8.64e15 ms — otherwise the
`isNaN(date)` guard makes the branch fall through), percent, thousands
grouping, fixed point, integer, general. -/
def formatNumber (numFmts : Nat → Option String) (value : ℚ) (fmtId : Option Nat) : String :=
  let fmt := resolveFmtCode numFmts fmtId
  let ms := (value - 25569) * 86400 * 1000
  if hasYMD fmt = true ∧ 0 < value ∧ |ms| ≤ 8640000000000000 then
    jsToLocaleDateZhCN ms
  else if containsChar fmt '%' = true then
    let dec := (max 0 ((countZeros fmt : ℤ) - 1)).toNat
    toFixed (value * 100) dec ++ "%"
  else if containsChar fmt ',' = true then
    let dec := (max 0 ((dotZeroRunLen fmt : ℤ) - 1)).toNat
    toLocaleStringGrouped value dec
  else if dotZeroRunLen fmt ≠ 0 then
    toFixed value (dotZeroRunLen fmt - 1)
  else if value.den = 1 then
    toString value.num
  else
    generalRender value

/-! ## Text overflow (source: `getOverflowEndCol`) -/

/-- The ambient state `getOverflowEndCol` reads: the style table, the
per-sheet column widths and bounds, and the two external text functions it
calls (`getCellDisplayText`, which resolves a cell element's displayable
text given a style index, and the canvas-based `measureTextWidth`).  Cell
elements are kept abstract (`α`). -/
structure OverflowEnv (α : Type) where
  cellXfs : Nat → Option Xf
  currentColWidths : Nat → Option ℚ
  currentMaxCol : Nat
  currentMDW : ℚ
  typeAttr : α → Option String
  displayText : α → Option Nat → String
  measureTextWidth : String → Option Xf → ℚ

/-- The `cellStyle && cellStyle.alignment` access chain. -/
def styleAlign (cellStyle : Option Xf) : Option Alignment :=
  cellStyle.bind Xf.alignment

/-- `cellStyle && cellStyle.alignment && cellStyle.alignment.wrapText`. -/
def alignWrap (al : Option Alignment) : Bool :=
  (al.map Alignment.wrapText).getD false

/-- `... && cellStyle.alignment.shrinkToFit`. -/
def alignShrink (al : Option Alignment) : Bool :=
  (al.map Alignment.shrinkToFit).getD false

/-- `... && cellStyle.alignment.textRotation` (a number, 0 when absent). -/
def alignRot (al : Option Alignment) : Int :=
  (al.map Alignment.textRotation).getD 0

/-- `... && cellStyle.alignment.horizontal`. -/
def alignHoriz (al : Option Alignment) : Option String :=
  al.bind Alignment.horizontal

/-- One step of the rightward scan: a column stops the scan when it lies in
a merge region or holds an element with non-empty displayable text. -/
def overflowStop {α : Type} (env : OverflowEnv α) (rowNum : Nat)
    (cellMap : Nat → Option α) (mergeSpan : Nat → Nat → Bool)
    (rsi : Option (Nat → Nat → Option Nat)) (c : Nat) : Bool :=
  mergeSpan rowNum c ||
    (match cellMap c with
     | some nb =>
       env.displayText nb (match rsi with | some f => f rowNum c | none => none) ≠ ""
     | none => false)

/-- The scan loop `for (let c = colNum + 1; c <= currentMaxCol; c++)`:
`endCol` advances over every non-stopping column and the loop breaks at the
first stopping one. -/
def overflowScanGo (stop : Nat → Bool) : Nat → List Nat → Nat
  | endCol, [] => endCol
  | endCol, c :: rest => if stop c then endCol else overflowScanGo stop c rest

/-- The whole scan over columns `colNum+1 .. currentMaxCol`. -/
def overflowScan {α : Type} (env : OverflowEnv α) (rowNum colNum : Nat)
    (cellMap : Nat → Option α) (mergeSpan : Nat → Nat → Bool)
    (rsi : Option (Nat → Nat → Option Nat)) : Nat :=
  overflowScanGo (overflowStop env rowNum cellMap mergeSpan rsi) colNum
    (List.range' (colNum + 1) (env.currentMaxCol - colNum))

/-- Source `getOverflowEndCol(cellElem, styleIndex, rowNum, colNum, cellMap,
mergeSpanMap, resolveStyleIndex)`: the eligibility guards in source order
(text type, no wrap, horizontal alignment, no shrink, no rotation, nonempty
text, not merged, text wider than the column minus the 6px padding), then
the rightward scan; a scan that never advances reports `null`.  The source
passes the resolved style object as `getCellDisplayText`'s second argument,
where a style index is expected, so that lookup degrades to "no style" —
modelled by passing `none`. -/
def getOverflowEndCol {α : Type} (env : OverflowEnv α) (cellElem : Option α)
    (styleIndex : Option Nat) (rowNum colNum : Nat)
    (cellMap : Nat → Option α) (mergeSpan : Nat → Nat → Bool)
    (rsi : Option (Nat → Nat → Option Nat)) : Option Nat :=
  match cellElem with
  | none => none
  | some ce =>
    let cellType := env.typeAttr ce
    let isTextType :=
      cellType = some "s" ∨ cellType = some "str" ∨ cellType = some "inlineStr"
    if ¬isTextType then none
    else
      let cellStyle := styleIndex.bind env.cellXfs
      if alignWrap (styleAlign cellStyle) then none
      else
        let hAlign := alignHoriz (styleAlign cellStyle)
        if hAlign = some "center" ∨ hAlign = some "right" ∨ hAlign = some "justify" ∨
            hAlign = some "distributed" then none
        else
          if alignShrink (styleAlign cellStyle) then none
          else
            if alignRot (styleAlign cellStyle) ≠ 0 then none
            else
              let text := env.displayText ce none
              if text = "" then none
              else if mergeSpan rowNum colNum then none
              else
                let cellWidth :=
                  calcColumnWidthPx env.currentMDW
                    ((env.currentColWidths colNum).getD (843/100))
                let textWidth := env.measureTextWidth text cellStyle
                if textWidth ≤ max 0 ((cellWidth : ℚ) - 6) then none
                else
                  let endCol := overflowScan env rowNum colNum cellMap mergeSpan rsi
                  if colNum < endCol then some endCol else none

/-! ## Merged-cell border aggregation (source: `applyMergedBorders`) -/

/-- One side of a parsed `<border>`: a style keyword and an optional color. -/
structure BorderSide where
  style : String
  color : Option ColorObj := none
deriving DecidableEq

/-- A parsed border record: four optional sides. -/
structure BorderRec where
  top : Option BorderSide := none
  right : Option BorderSide := none
  bottom : Option BorderSide := none
  left : Option BorderSide := none
deriving DecidableEq

/-- The four CSS border slots of a rendered `<td>`; `none` models the empty
(falsy) `td.style.borderX` string. -/
structure TdBorders where
  top : Option String := none
  right : Option String := none
  bottom : Option String := none
  left : Option String := none
deriving DecidableEq

/-- A merge geometry entry (`rowspan`/`colspan` of the anchor). -/
structure MergeSpan where
  rowspan : Nat
  colspan : Nat
deriving DecidableEq

/-- The four sides, for `applyBorderSide`'s side-dependent edge guards. -/
inductive Side
  | top
  | right
  | bottom
  | left
deriving DecidableEq

/-- Ambient state of `applyMergedBorders`: the style and border tables, the
theme palette (for border colors), and the sheet's column bound. -/
structure MergeBorderEnv where
  themeColors : Nat → Option String
  cellXfs : Nat → Option Xf
  borders : Nat → Option BorderRec
  currentMaxCol : Nat

/-- The CSS value `applyBorderSide` builds: width/style from the border
keyword (default `1px solid`), color from `resolveColor` or `#000`; a
`null` color resolution interpolates as the string `"null"`. -/
def borderCss (env : MergeBorderEnv) (bs : BorderSide) : String :=
  let w :=
    if bs.style = "medium" then "2px"
    else if bs.style = "thick" then "3px"
    else if bs.style = "hair" then "0.5px"
    else if bs.style = "double" then "3px"
    else "1px"
  let st :=
    if bs.style = "dotted" then "dotted"
    else if bs.style = "dashed" then "dashed"
    else if bs.style = "double" then "double"
    else "solid"
  let c :=
    match bs.color with
    | some co =>
      match resolveColor env.themeColors (some co) with
      | some s => s
      | none => "null"
    | none => "#000"
  w ++ " " ++ st ++ " " ++ c

/-- The `applyBorderSide` closure: skip a falsy border style, skip the left
side on the sheet's first column and the right side on its last column
(when `currentMaxCol` is truthy), otherwise produce the CSS value. -/
def applyBorderSide (env : MergeBorderEnv) (startCol endCol : Nat) (side : Side)
    (bs : BorderSide) : Option String :=
  if bs.style = "" then none
  else if side = Side.left ∧ startCol = 1 then none
  else if side = Side.right ∧ env.currentMaxCol ≠ 0 ∧ endCol = env.currentMaxCol then none
  else some (borderCss env bs)

/-- The `getBorderForCell` closure: style index → `cellXfs` entry →
`borders[style.borderId] || null`. -/
def getBorderForCell (env : MergeBorderEnv) (rsi : Nat → Nat → Option Nat)
    (r c : Nat) : Option BorderRec :=
  match rsi r c with
  | none => none
  | some idx =>
    match env.cellXfs idx with
    | none => none
    | some style => env.borders style.borderId

/-- Source `applyMergedBorders(td, rowNum, colNum, merge, resolveStyleIndex)`
as a function on the td's border state: each of the four sides is filled
only when currently unset, by scanning the matching edge of the merge
rectangle in declaration order for the first border record carrying that
side and applying it. -/
def applyMergedBorders (env : MergeBorderEnv) (td : TdBorders) (rowNum colNum : Nat)
    (merge : MergeSpan) (rsi : Nat → Nat → Option Nat) : TdBorders :=
  let startRow := rowNum
  let startCol := colNum
  let endRow := rowNum + merge.rowspan - 1
  let endCol := colNum + merge.colspan - 1
  let scanCols := List.range' startCol (endCol + 1 - startCol)
  let scanRows := List.range' startRow (endRow + 1 - startRow)
  let newTop :=
    if td.top = none then
      (scanCols.findSome? (fun c => (getBorderForCell env rsi startRow c).bind BorderRec.top)).bind
        (applyBorderSide env startCol endCol Side.top)
    else td.top
  let newBottom :=
    if td.bottom = none then
      (scanCols.findSome? (fun c => (getBorderForCell env rsi endRow c).bind BorderRec.bottom)).bind
        (applyBorderSide env startCol endCol Side.bottom)
    else td.bottom
  let newLeft :=
    if td.left = none then
      (scanRows.findSome? (fun r => (getBorderForCell env rsi r startCol).bind BorderRec.left)).bind
        (applyBorderSide env startCol endCol Side.left)
    else td.left
  let newRight :=
    if td.right = none then
      (scanRows.findSome? (fun r => (getBorderForCell env rsi r endCol).bind BorderRec.right)).bind
        (applyBorderSide env startCol endCol Side.right)
    else td.right
  { top := newTop, right := newRight, bottom := newBottom, left := newLeft }

/-! ## Freeze panes (source: `parseFreezePanes`) -/

/-- The `sheetView pane` element of a worksheet: its three attributes. -/
structure PaneElem where
  state : Option String := none
  ySplit : Option String := none
  xSplit : Option String := none
deriving DecidableEq

/-- The result record of `parseFreezePanes`.  The counts are integers
because `parseInt(attr) || 0` passes any parsed value through, including a
negative one. -/
structure FreezeResult where
  frozenRows : Int
  frozenCols : Int
  isFrozen : Bool
deriving DecidableEq

/-- `parseInt(attr) || 0` guarded by the truthiness test `if (attr)`. -/
def splitCount (attr : Option String) : Int :=
  match attr with
  | some s => if s ≠ "" then (jsParseInt s).getD 0 else 0
  | none => 0

/-- Source `parseFreezePanes(doc)`: no pane, or a pane whose `state` is not
`frozen`/`frozenSplit`, yields the unfrozen zero result; otherwise
`isFrozen` with `ySplit`/`xSplit` parsed via `parseInt(...) || 0`. -/
def parseFreezePanes (pane : Option PaneElem) : FreezeResult :=
  match pane with
  | none => { frozenRows := 0, frozenCols := 0, isFrozen := false }
  | some p =>
    if p.state ≠ some "frozen" ∧ p.state ≠ some "frozenSplit" then
      { frozenRows := 0, frozenCols := 0, isFrozen := false }
    else
      { frozenRows := splitCount p.ySplit
        frozenCols := splitCount p.xSplit
        isFrozen := true }

/-! ## Grid truncation (source: `renderSheet`) -/

/-- The `maxCol` computation of `renderSheet`: the maximum cell column
reference over all rows, starting from 1, then `Math.min(maxCol, 100)`.
A row is its list of cell column references. -/
def computeMaxCol (rows : List (List Nat)) : Nat :=
  let m := rows.foldl (fun acc cols => cols.foldl (fun a c => if a < c then c else a) acc) 1
  min m 100

/-- A `<tr>` emitted by the row loop: a filler for a gap row, or a data row
rendered from a `<row>` element. -/
inductive RenderedTr
  | emptyRow (num : Nat)
  | dataRow (num : Nat)
deriving DecidableEq

/-- The row number a rendered `<tr>` carries. -/
def RenderedTr.num : RenderedTr → Nat
  | .emptyRow n => n
  | .dataRow n => n

/-- The gap filler `while (lastRow < rowNum - 1 && lastRow < 1000)`: it
emits one empty row per iteration, for the numbers
`lastRow+1 .. min (rowNum-1) 1000`. -/
def fillEmptyRows (lastRow rowNum : Nat) : List Nat :=
  List.range' (lastRow + 1) (min (rowNum - 1) 1000 - lastRow)

/-- The body of `rows.forEach` in `renderSheet`, restricted to which `<tr>`
elements are appended: gap fillers first, then `lastRow = rowNum`, then
`if (rowNum > 1000) return` skips the data row entirely. -/
def renderRowsGo : Nat → List Nat → List RenderedTr
  | _, [] => []
  | lastRow, rowNum :: rest =>
    let fillers := (fillEmptyRows lastRow rowNum).map RenderedTr.emptyRow
    if rowNum > 1000 then fillers ++ renderRowsGo rowNum rest
    else fillers ++ (RenderedTr.dataRow rowNum :: renderRowsGo rowNum rest)

/-- The whole row loop, starting from `lastRow = 0`; a sheet's rows are
given by their parsed row numbers. -/
def renderRows (rowNums : List Nat) : List RenderedTr :=
  renderRowsGo 0 rowNums

/-! ## Theorems -/

/-- C2: `resolveStyleIndex` returns the cell-level style index when the
cell declares one; otherwise the row-level index when the row declares one;
otherwise the column-level index when a column definition covers the
column; otherwise none.  In particular, with no cell-level entry, a
row-level index is returned regardless of any column-level index. -/
theorem resolveStyleIndex_cascade (cellStyleMap : Nat × Nat → Option Nat)
    (rowStyleMap colStyles : Nat → Option Nat) (r c : Nat) :
    (∀ i, cellStyleMap (r, c) = some i →
      resolveStyleIndex cellStyleMap rowStyleMap colStyles r c = some i) ∧
    (∀ i, cellStyleMap (r, c) = none → rowStyleMap r = some i →
      resolveStyleIndex cellStyleMap rowStyleMap colStyles r c = some i) ∧
    (∀ i, cellStyleMap (r, c) = none → rowStyleMap r = none → colStyles c = some i →
      resolveStyleIndex cellStyleMap rowStyleMap colStyles r c = some i) ∧
    (cellStyleMap (r, c) = none → rowStyleMap r = none → colStyles c = none →
      resolveStyleIndex cellStyleMap rowStyleMap colStyles r c = none) := by
  refine ⟨?_, ?_, ?_, ?_⟩ <;> intros <;> simp_all [resolveStyleIndex]

/-- Witness for C2: a cell with no direct style in a row with style 5 and a
column with style 9 resolves to the row style 5, never the column's 9. -/
theorem resolveStyleIndex_cascade_witness :
    resolveStyleIndex (fun _ => none) (fun r => if r = 1 then some 5 else none)
      (fun c => if c = 1 then some 9 else none) 1 1 = some 5 :=
  (resolveStyleIndex_cascade (fun _ => none) (fun r => if r = 1 then some 5 else none)
    (fun c => if c = 1 then some 9 else none) 1 1).2.1 5 rfl (by decide)

/-- C3: for a finite Excel width `w` and a positive max-digit-width `mdw`,
`calcColumnWidthPx` yields 0 when `w ≤ 0` and exactly
`floor(((256*w + floor(128/mdw))/256)*mdw) + 5` otherwise. -/
theorem calcColumnWidthPx_formula (mdw w : ℚ) (h : 0 < mdw) :
    (w ≤ 0 → calcColumnWidthPx mdw w = 0) ∧
    (0 < w → calcColumnWidthPx mdw w =
      ⌊((256 * w + (⌊(128 : ℚ) / mdw⌋ : ℚ)) / 256) * mdw⌋ + 5) := by
  have hne : ¬mdw = 0 := ne_of_gt h
  constructor
  · intro hw
    simp [calcColumnWidthPx, hne, hw]
  · intro hw
    simp [calcColumnWidthPx, hne, not_le.mpr hw]

/-- Witness for C3: the default width 8.43 at `mdw = 7` follows the exact
pixel formula. -/
theorem calcColumnWidthPx_formula_witness :
    calcColumnWidthPx 7 (843/100) =
      ⌊((256 * (843/100 : ℚ) + (⌊(128 : ℚ) / 7⌋ : ℚ)) / 256) * 7⌋ + 5 :=
  (calcColumnWidthPx_formula 7 (843/100) (by norm_num)).2 (by norm_num)

/-- C7: for a fixed nonnegative `currentMDW` (the measured width; 0 falls
back to 7), the Excel-width-to-pixel conversion is monotone, including
across the `w ≤ 0` cutoff. -/
theorem calcColumnWidthPx_monotone (mdw w1 w2 : ℚ) (hm : 0 ≤ mdw) (h : w1 ≤ w2) :
    calcColumnWidthPx mdw w1 ≤ calcColumnWidthPx mdw w2 := by
  unfold calcColumnWidthPx
  set m : ℚ := if mdw = 0 then 7 else mdw with hmdef
  have hmpos : 0 < m := by
    by_cases h0 : mdw = 0
    · simp [hmdef, h0]
    · simpa [hmdef, h0] using lt_of_le_of_ne hm (Ne.symm h0)
  have hk : (0 : ℚ) ≤ (⌊(128 : ℚ) / m⌋ : ℚ) := by
    have : (0 : ℤ) ≤ ⌊(128 : ℚ) / m⌋ := Int.floor_nonneg.mpr (by positivity)
    exact_mod_cast this
  by_cases h1 : w1 ≤ 0
  · rw [if_pos h1]
    by_cases h2 : w2 ≤ 0
    · rw [if_pos h2]
    · rw [if_neg h2]
      have hw2 : 0 < w2 := not_le.mp h2
      have hin : (0 : ℚ) ≤ ((256 * w2 + (⌊(128 : ℚ) / m⌋ : ℚ)) / 256) * m := by
        have h256 : (0 : ℚ) ≤ 256 * w2 + (⌊(128 : ℚ) / m⌋ : ℚ) := by positivity
        positivity
      have : (0 : ℤ) ≤ ⌊((256 * w2 + (⌊(128 : ℚ) / m⌋ : ℚ)) / 256) * m⌋ :=
        Int.floor_nonneg.mpr hin
      omega
  · have h2 : ¬w2 ≤ 0 := fun hc => h1 (le_trans h hc)
    rw [if_neg h1, if_neg h2]
    have : ⌊((256 * w1 + (⌊(128 : ℚ) / m⌋ : ℚ)) / 256) * m⌋ ≤
        ⌊((256 * w2 + (⌊(128 : ℚ) / m⌋ : ℚ)) / 256) * m⌋ := by
      gcongr
    omega

/-- Witness for C7: widening from a non-positive width to the default 8.43
does not decrease the pixel width. -/
theorem calcColumnWidthPx_monotone_witness :
    calcColumnWidthPx 7 (-1) ≤ calcColumnWidthPx 7 (843/100) :=
  calcColumnWidthPx_monotone 7 (-1) (843/100) (by norm_num) (by norm_num)

/-- C6: `resolveColor` is a total function of its inputs (a Lean function
by construction, with no error path); an `Indexed` reference outside the
fixed 64-entry legacy palette always resolves to `none`, and one inside it
always resolves to a color. -/
theorem resolveColor_indexed (themeColors : Nat → Option String) (i : Nat) :
    (64 ≤ i → resolveColor themeColors (some { indexed := some i }) = none) ∧
    (i < 64 → (resolveColor themeColors (some { indexed := some i })).isSome = true) := by
  have hlen : legacyPalette.length = 64 := by rfl
  constructor
  · intro hi
    simp [resolveColor, indexedLookup, jsStrTruthy, List.get?_eq_none, hlen, hi]
  · intro hi
    have hi' : i < legacyPalette.length := hlen ▸ hi
    simp only [resolveColor, indexedLookup, jsStrTruthy]
    rw [List.get?_eq_getElem?, List.getElem?_eq_getElem hi']
    rfl

/-- Witness for C6: index 64 resolves to `none`, index 0 to a color. -/
theorem resolveColor_indexed_witness :
    resolveColor (fun _ => none) (some { indexed := some 64 }) = none ∧
    (resolveColor (fun _ => none) (some { indexed := some 0 })).isSome = true :=
  ⟨(resolveColor_indexed (fun _ => none) 64).1 (by decide),
   (resolveColor_indexed (fun _ => none) 0).2 (by decide)⟩

/-- C5: every side of the merge-border aggregation is filled only when
currently unset, so running `applyMergedBorders` on an anchor whose four
sides are already set changes nothing. -/
theorem applyMergedBorders_idempotent (env : MergeBorderEnv) (td : TdBorders)
    (rowNum colNum : Nat) (merge : MergeSpan) (rsi : Nat → Nat → Option Nat)
    (ht : td.top ≠ none) (hr : td.right ≠ none)
    (hb : td.bottom ≠ none) (hl : td.left ≠ none) :
    applyMergedBorders env td rowNum colNum merge rsi = td := by
  obtain ⟨t, r, b, l⟩ := td
  simp only [applyMergedBorders]
  simp_all

/-- Witness for C5: a fully bordered 2×2 anchor is left unchanged. -/
theorem applyMergedBorders_idempotent_witness :
    applyMergedBorders
      { themeColors := fun _ => none, cellXfs := fun _ => some {},
        borders := fun _ => some { top := some { style := "thin" } }, currentMaxCol := 10 }
      { top := some "1px solid #000", right := some "1px solid #000",
        bottom := some "1px solid #000", left := some "1px solid #000" }
      2 2 { rowspan := 2, colspan := 2 } (fun _ _ => some 0) =
    { top := some "1px solid #000", right := some "1px solid #000",
      bottom := some "1px solid #000", left := some "1px solid #000" } :=
  applyMergedBorders_idempotent _ _ 2 2 _ _ (by decide) (by decide) (by decide) (by decide)

/-- C9 counterexample: a pane explicitly frozen with `ySplit="-2"` parses
to `frozenRows = -2 < 0`, so the counts are not always nonnegative. -/
theorem parseFreezePanes_negative_count :
    parseFreezePanes (some { state := some "frozen", ySplit := some "-2" }) =
      { frozenRows := -2, frozenCols := 0, isFrozen := true } ∧
    ¬(0 ≤ (parseFreezePanes
        (some { state := some "frozen", ySplit := some "-2" })).frozenRows) := by
  decide

/-- C9 (amended): the parsed freeze-pane result is the unfrozen zero record
when no pane exists or its state is not `frozen`/`frozenSplit`; `isFrozen`
holds only when a pane explicitly declares a frozen state; and the counts
are nonnegative whenever the split attributes do not parse to negative
integers (they echo the parsed values, so a negative attribute propagates). -/
theorem parseFreezePanes_spec (pane : Option PaneElem) :
    (pane = none →
      parseFreezePanes pane = { frozenRows := 0, frozenCols := 0, isFrozen := false }) ∧
    (∀ p, pane = some p → p.state ≠ some "frozen" → p.state ≠ some "frozenSplit" →
      parseFreezePanes pane = { frozenRows := 0, frozenCols := 0, isFrozen := false }) ∧
    ((parseFreezePanes pane).isFrozen = true →
      ∃ p, pane = some p ∧ (p.state = some "frozen" ∨ p.state = some "frozenSplit")) ∧
    (∀ p, pane = some p → 0 ≤ splitCount p.ySplit → 0 ≤ splitCount p.xSplit →
      0 ≤ (parseFreezePanes pane).frozenRows ∧ 0 ≤ (parseFreezePanes pane).frozenCols) := by
  refine ⟨?_, ?_, ?_, ?_⟩
  · rintro rfl; rfl
  · rintro p rfl h1 h2
    simp [parseFreezePanes, h1, h2]
  · intro h
    match pane, h with
    | none, h => simp [parseFreezePanes] at h
    | some p, h =>
      refine ⟨p, rfl, ?_⟩
      by_contra hc
      push_neg at hc
      simp [parseFreezePanes, hc.1, hc.2] at h
  · rintro p rfl hy hx
    by_cases hs : p.state ≠ some "frozen" ∧ p.state ≠ some "frozenSplit"
    · simp [parseFreezePanes, hs.1, hs.2]
    · have : ¬(p.state ≠ some "frozen" ∧ p.state ≠ some "frozenSplit") := hs
      constructor <;> · simp only [parseFreezePanes, if_neg this]; assumption

/-- Witness for C9: a pane frozen at `ySplit="2"`, `xSplit="1"` has
nonnegative counts. -/
theorem parseFreezePanes_spec_witness :
    0 ≤ (parseFreezePanes
        (some { state := some "frozen", ySplit := some "2", xSplit := some "1" })).frozenRows ∧
    0 ≤ (parseFreezePanes
        (some { state := some "frozen", ySplit := some "2", xSplit := some "1" })).frozenCols :=
  (parseFreezePanes_spec _).2.2.2 _ rfl (by decide) (by decide)

/-- Every `<tr>` emitted by the row loop carries a row number of at most
1000: the fillers stop at 1000 and data rows beyond 1000 are skipped. -/
theorem renderRowsGo_le (rowNums : List Nat) :
    ∀ lastRow, ∀ tr ∈ renderRowsGo lastRow rowNums, tr.num ≤ 1000 := by
  induction rowNums with
  | nil => intro lastRow tr h; simp [renderRowsGo] at h
  | cons rowNum rest ih =>
    intro lastRow tr h
    have hfill : ∀ tr' ∈ (fillEmptyRows lastRow rowNum).map RenderedTr.emptyRow,
        RenderedTr.num tr' ≤ 1000 := by
      intro tr' h'
      rcases List.mem_map.mp h' with ⟨m, hm, rfl⟩
      rcases List.mem_range'_1.mp hm with ⟨h1, h2⟩
      have hstop : min (rowNum - 1) 1000 ≤ 1000 := min_le_right _ _
      simp only [RenderedTr.num]
      omega
    rw [renderRowsGo] at h
    by_cases hgt : rowNum > 1000
    · rw [if_pos hgt] at h
      rcases List.mem_append.mp h with h' | h'
      · exact hfill tr h'
      · exact ih rowNum tr h'
    · rw [if_neg hgt] at h
      rcases List.mem_append.mp h with h' | h'
      · exact hfill tr h'
      · rcases List.mem_cons.mp h' with rfl | h''
        · simpa [RenderedTr.num] using Nat.le_of_not_lt hgt
        · exact ih rowNum tr h''

/-- C10: the rendered grid is truncated on load — the computed maximum
column is clamped to `min(maxCol, 100)` so at most 100 columns render, and
every emitted row (filler or data) has row number at most 1000; in
particular a `<row>` with number above 1000 contributes no data row. -/
theorem renderSheet_truncation :
    (∀ rows : List (List Nat), computeMaxCol rows ≤ 100) ∧
    (∀ rowNums : List Nat, ∀ tr ∈ renderRows rowNums, tr.num ≤ 1000) ∧
    (∀ rowNums : List Nat, ∀ n ∈ rowNums, 1000 < n →
      RenderedTr.dataRow n ∉ renderRows rowNums) := by
  refine ⟨?_, ?_, ?_⟩
  · intro rows
    exact min_le_right _ _
  · intro rowNums tr h
    exact renderRowsGo_le rowNums 0 tr h
  · intro rowNums n _ hn hmem
    have := renderRowsGo_le rowNums 0 _ hmem
    simp [RenderedTr.num] at this
    omega

/-- Witness for C10: a sheet with rows 1, 5 and 1500 (the cell of row 1500
in column 120): row 1500 is dropped, every emitted row number is ≤ 1000,
and the column bound clamps to 100. -/
theorem renderSheet_truncation_witness :
    computeMaxCol [[3], [7], [120]] ≤ 100 ∧
    (∀ tr ∈ renderRows [1, 5, 1500], tr.num ≤ 1000) ∧
    RenderedTr.dataRow 1500 ∉ renderRows [1, 5, 1500] :=
  ⟨renderSheet_truncation.1 [[3], [7], [120]],
   fun tr h => renderSheet_truncation.2.1 [1, 5, 1500] tr h,
   renderSheet_truncation.2.2 [1, 5, 1500] 1500 (by decide) (by decide)⟩

/-- C8: after both style tables exist, the alignment post-pass maps each
applied format as follows — `applyAlignment = "0"` forces its alignment to
none regardless of any parent; a format lacking its own alignment that does
not disable inheritance and names a parent base style carrying an alignment
receives a copy of it; every other format keeps its alignment unchanged
(own alignment kept, and nothing changed when the parent is absent,
out of range, or exists but carries no alignment itself). -/
theorem alignmentInheritance_spec (baseCellXfs : List BaseXf) (cellXfs : List Xf)
    (i : Nat) (s : Xf) (hs : cellXfs.get? i = some s) :
    (s.applyAlignment = some "0" →
      (applyAlignmentInheritance baseCellXfs cellXfs).get? i =
        some { s with alignment := none }) ∧
    (s.applyAlignment ≠ some "0" → s.alignment = none →
      ∀ id b a, s.xfId = some id → baseCellXfs.get? id = some b → b.alignment = some a →
        (applyAlignmentInheritance baseCellXfs cellXfs).get? i =
          some { s with alignment := some a }) ∧
    (s.applyAlignment ≠ some "0" → ∀ a, s.alignment = some a →
      (applyAlignmentInheritance baseCellXfs cellXfs).get? i = some s) ∧
    (s.applyAlignment ≠ some "0" → s.alignment = none → s.xfId = none →
      (applyAlignmentInheritance baseCellXfs cellXfs).get? i = some s) ∧
    (s.applyAlignment ≠ some "0" → s.alignment = none →
      ∀ id, s.xfId = some id → baseCellXfs.get? id = none →
        (applyAlignmentInheritance baseCellXfs cellXfs).get? i = some s) ∧
    (s.applyAlignment ≠ some "0" → s.alignment = none →
      ∀ id b, s.xfId = some id → baseCellXfs.get? id = some b → b.alignment = none →
        (applyAlignmentInheritance baseCellXfs cellXfs).get? i = some s) := by
  have hs' : cellXfs[i]? = some s := (List.get?_eq_getElem? cellXfs i) ▸ hs
  have hmap : (applyAlignmentInheritance baseCellXfs cellXfs).get? i =
      some (mergeBaseAlignment baseCellXfs s) := by
    simp [applyAlignmentInheritance, List.get?_eq_getElem?, List.getElem?_map, hs']
  refine ⟨?_, ?_, ?_, ?_, ?_, ?_⟩
  · intro h0
    rw [hmap]
    simp [mergeBaseAlignment, h0]
  · intro h0 hnone id b a hid hb ha
    have hb' : baseCellXfs[id]? = some b := (List.get?_eq_getElem? baseCellXfs id) ▸ hb
    rw [hmap]
    simp [mergeBaseAlignment, h0, hnone, hid, hb', ha]
  · intro h0 a ha
    rw [hmap]
    simp [mergeBaseAlignment, h0, ha]
  · intro h0 hnone hid
    rw [hmap]
    simp [mergeBaseAlignment, h0, hnone, hid]
  · intro h0 hnone id hid hb
    have hb' : baseCellXfs[id]? = none := (List.get?_eq_getElem? baseCellXfs id) ▸ hb
    rw [hmap]
    simp [mergeBaseAlignment, h0, hnone, hid, hb']
  · intro h0 hnone id b hid hb halign
    have hb' : baseCellXfs[id]? = some b := (List.get?_eq_getElem? baseCellXfs id) ▸ hb
    rw [hmap]
    obtain ⟨f1, f2, f3, f4, x, a, al⟩ := s
    simp_all [mergeBaseAlignment]

/-- Witness for C8: a format without its own alignment inheriting a
wrap-text alignment from base style 0, on concrete one-entry tables. -/
theorem alignmentInheritance_spec_witness :
    (applyAlignmentInheritance [{ alignment := some { wrapText := true } }]
        [{ xfId := some 0 }]).get? 0 =
      some { xfId := some 0, alignment := some { wrapText := true } } :=
  (alignmentInheritance_spec [{ alignment := some { wrapText := true } }]
      [{ xfId := some 0 }] 0 { xfId := some 0 } (by decide)).2.1
    (by decide) (by decide) 0 { alignment := some { wrapText := true } }
    { wrapText := true } (by decide) (by decide) (by decide)

/-- The scan loop, characterized: starting at `prev` over the consecutive
columns `prev+1 .. prev+n`, the result lies in `[prev, prev+n]`, every
column advanced over is non-stopping, and when the loop broke early the
next column is a stopping one. -/
theorem overflowScanGo_spec (stop : Nat → Bool) (n : Nat) :
    ∀ prev,
      prev ≤ overflowScanGo stop prev (List.range' (prev + 1) n) ∧
      overflowScanGo stop prev (List.range' (prev + 1) n) ≤ prev + n ∧
      (∀ c, prev < c → c ≤ overflowScanGo stop prev (List.range' (prev + 1) n) →
        stop c = false) ∧
      (overflowScanGo stop prev (List.range' (prev + 1) n) < prev + n →
        stop (overflowScanGo stop prev (List.range' (prev + 1) n) + 1) = true) := by
  induction n with
  | zero =>
    intro prev
    simp only [List.range', overflowScanGo]
    exact ⟨le_refl _, by omega, fun c h1 h2 => by omega, fun h => by omega⟩
  | succ n ih =>
    intro prev
    rw [List.range'_succ]
    by_cases hstop : stop (prev + 1) = true
    · rw [overflowScanGo, if_pos hstop]
      refine ⟨le_refl _, by omega, fun c h1 h2 => by omega, fun _ => ?_⟩
      exact hstop
    · have hstop' : stop (prev + 1) = false := by
        cases h : stop (prev + 1)
        · rfl
        · exact absurd h hstop
      rw [overflowScanGo, if_neg hstop]
      obtain ⟨ih1, ih2, ih3, ih4⟩ := ih (prev + 1)
      refine ⟨le_trans (by omega) ih1, by omega, ?_, fun h => ih4 (by omega)⟩
      intro c h1 h2
      by_cases hc : c = prev + 1
      · subst hc; exact hstop'
      · exact ih3 c (by omega) h2

/-- Example sheet row for the overflow span: cell elements are their own
display texts; column 1 holds a long text, columns 2 and 3 are empty,
column 4 is non-empty, and the sheet has 10 columns. -/
def overflowExampleEnv : OverflowEnv String where
  cellXfs := fun _ => none
  currentColWidths := fun _ => none
  currentMaxCol := 10
  currentMDW := 7
  typeAttr := fun _ => some "s"
  displayText := fun s _ => s
  measureTextWidth := fun _ _ => 100

/-- The cell map of the example row. -/
def overflowExampleRow : Nat → Option String :=
  fun c => if c = 1 then some "a long overflowing text"
    else if c = 4 then some "x" else none

/-- C4: a text overflow span is computed iff every precondition holds —
textual raw type, wrap-text off, horizontal alignment not
center/right/justify/distributed, shrink-to-fit off, zero rotation,
non-empty display text, not merged, and measured width above the column's
pixel width minus the 6px padding: under those preconditions the result is
the scan end when it advanced and `none` for a width-1 span, and the scan
end is characterized declaratively (it advances exactly over the
consecutive non-stopping columns after the cell and halts at the first
merged or non-empty column or at the sheet's column bound); conversely,
violating any one precondition yields `none`.  In particular the eligible
example cell followed by two empty cells and a non-empty one overflows
exactly two columns (through column 3). -/
theorem getOverflowEndCol_spec {α : Type} (env : OverflowEnv α) (ce : α)
    (styleIndex : Option Nat) (rowNum colNum : Nat) (cellMap : Nat → Option α)
    (mergeSpan : Nat → Nat → Bool) (rsi : Option (Nat → Nat → Option Nat)) :
    ((env.typeAttr ce = some "s" ∨ env.typeAttr ce = some "str" ∨
        env.typeAttr ce = some "inlineStr") →
      alignWrap (styleAlign (styleIndex.bind env.cellXfs)) = false →
      ¬(alignHoriz (styleAlign (styleIndex.bind env.cellXfs)) = some "center" ∨
          alignHoriz (styleAlign (styleIndex.bind env.cellXfs)) = some "right" ∨
          alignHoriz (styleAlign (styleIndex.bind env.cellXfs)) = some "justify" ∨
          alignHoriz (styleAlign (styleIndex.bind env.cellXfs)) = some "distributed") →
      alignShrink (styleAlign (styleIndex.bind env.cellXfs)) = false →
      alignRot (styleAlign (styleIndex.bind env.cellXfs)) = 0 →
      env.displayText ce none ≠ "" →
      mergeSpan rowNum colNum = false →
      max 0 ((calcColumnWidthPx env.currentMDW
            ((env.currentColWidths colNum).getD (843/100)) : ℚ) - 6)
          < env.measureTextWidth (env.displayText ce none) (styleIndex.bind env.cellXfs) →
      (getOverflowEndCol env (some ce) styleIndex rowNum colNum cellMap mergeSpan rsi =
          (if colNum < overflowScan env rowNum colNum cellMap mergeSpan rsi
           then some (overflowScan env rowNum colNum cellMap mergeSpan rsi)
           else none)) ∧
        colNum ≤ overflowScan env rowNum colNum cellMap mergeSpan rsi ∧
        overflowScan env rowNum colNum cellMap mergeSpan rsi
            ≤ colNum + (env.currentMaxCol - colNum) ∧
        (∀ c, colNum < c → c ≤ overflowScan env rowNum colNum cellMap mergeSpan rsi →
          overflowStop env rowNum cellMap mergeSpan rsi c = false) ∧
        (overflowScan env rowNum colNum cellMap mergeSpan rsi
            < colNum + (env.currentMaxCol - colNum) →
          overflowStop env rowNum cellMap mergeSpan rsi
              (overflowScan env rowNum colNum cellMap mergeSpan rsi + 1) = true)) ∧
    (¬(env.typeAttr ce = some "s" ∨ env.typeAttr ce = some "str" ∨
        env.typeAttr ce = some "inlineStr") →
      getOverflowEndCol env (some ce) styleIndex rowNum colNum cellMap mergeSpan rsi = none) ∧
    (alignWrap (styleAlign (styleIndex.bind env.cellXfs)) = true →
      getOverflowEndCol env (some ce) styleIndex rowNum colNum cellMap mergeSpan rsi = none) ∧
    ((alignHoriz (styleAlign (styleIndex.bind env.cellXfs)) = some "center" ∨
        alignHoriz (styleAlign (styleIndex.bind env.cellXfs)) = some "right" ∨
        alignHoriz (styleAlign (styleIndex.bind env.cellXfs)) = some "justify" ∨
        alignHoriz (styleAlign (styleIndex.bind env.cellXfs)) = some "distributed") →
      getOverflowEndCol env (some ce) styleIndex rowNum colNum cellMap mergeSpan rsi = none) ∧
    (alignShrink (styleAlign (styleIndex.bind env.cellXfs)) = true →
      getOverflowEndCol env (some ce) styleIndex rowNum colNum cellMap mergeSpan rsi = none) ∧
    (alignRot (styleAlign (styleIndex.bind env.cellXfs)) ≠ 0 →
      getOverflowEndCol env (some ce) styleIndex rowNum colNum cellMap mergeSpan rsi = none) ∧
    (env.displayText ce none = "" →
      getOverflowEndCol env (some ce) styleIndex rowNum colNum cellMap mergeSpan rsi = none) ∧
    (mergeSpan rowNum colNum = true →
      getOverflowEndCol env (some ce) styleIndex rowNum colNum cellMap mergeSpan rsi = none) ∧
    (env.measureTextWidth (env.displayText ce none) (styleIndex.bind env.cellXfs)
        ≤ max 0 ((calcColumnWidthPx env.currentMDW
            ((env.currentColWidths colNum).getD (843/100)) : ℚ) - 6) →
      getOverflowEndCol env (some ce) styleIndex rowNum colNum cellMap mergeSpan rsi = none) ∧
    (getOverflowEndCol overflowExampleEnv (some "a long overflowing text") none 1 1
        overflowExampleRow (fun _ _ => false) none = some 3) := by
  refine ⟨?_, ?_, ?_, ?_, ?_, ?_, ?_, ?_, ?_, by decide⟩
  · intro h1 h2 h3 h4 h5 h6 h7 h8
    have h8' : ¬(env.measureTextWidth (env.displayText ce none) (styleIndex.bind env.cellXfs)
        ≤ max 0 ((calcColumnWidthPx env.currentMDW
            ((env.currentColWidths colNum).getD (843/100)) : ℚ) - 6)) := not_le.mpr h8
    obtain ⟨ha, hb, hc, hd⟩ := overflowScanGo_spec
      (overflowStop env rowNum cellMap mergeSpan rsi) (env.currentMaxCol - colNum) colNum
    refine ⟨?_, ?_, ?_, ?_, ?_⟩
    · simp [getOverflowEndCol, not_not_intro h1, h2, h3, h4, h5, h6, h7, h8', overflowScan]
    · simpa [overflowScan] using ha
    · simpa [overflowScan] using hb
    · simpa [overflowScan] using hc
    · simpa [overflowScan] using hd
  · intro h; simp [getOverflowEndCol, h]
  · intro h; simp [getOverflowEndCol, h]
  · intro h; simp [getOverflowEndCol, h]
  · intro h; simp [getOverflowEndCol, h]
  · intro h; simp [getOverflowEndCol, h]
  · intro h; simp [getOverflowEndCol, h]
  · intro h; simp [getOverflowEndCol, h]
  · intro h; simp [getOverflowEndCol, h]

/-- Witness for C4: the eligible example cell's result is governed by the
scan: it equals the scan end (column 3) since the scan advanced. -/
theorem getOverflowEndCol_spec_witness :
    getOverflowEndCol overflowExampleEnv (some "a long overflowing text") none 1 1
        overflowExampleRow (fun _ _ => false) none =
      (if 1 < overflowScan overflowExampleEnv 1 1 overflowExampleRow (fun _ _ => false) none
       then some (overflowScan overflowExampleEnv 1 1 overflowExampleRow (fun _ _ => false) none)
       else none) :=
  ((getOverflowEndCol_spec overflowExampleEnv "a long overflowing text" none 1 1
      overflowExampleRow (fun _ _ => false) none).1 (by decide) (by decide) (by decide)
    (by decide) (by decide) (by decide) (by decide) (by decide)).1

/-- C1 counterexample: for `value = 200000000` with built-in format 14
(`"yyyy/m/d"`), the code contains `y` and the value is positive, yet the
result is the integer rendering `"200000000"`, not a locale date — the
timestamp exceeds JavaScript's valid `Date` range, `isNaN(date)` holds, and
the date branch falls through to the later rules, contradicting the claimed
unconditional ladder. -/
theorem formatNumber_date_fallthrough :
    hasYMD (resolveFmtCode (fun _ => none) (some 14)) = true ∧
    (0 : ℚ) < 200000000 ∧
    formatNumber (fun _ => none) (200000000 : ℚ) (some 14) = "200000000" ∧
    formatNumber (fun _ => none) (200000000 : ℚ) (some 14) ≠
      jsToLocaleDateZhCN (((200000000 : ℚ) - 25569) * 86400 * 1000) := by
  decide

/-- C1 (amended): `formatNumber` resolves the format code as the custom
table entry if present, else the built-in entry, else `"General"`, and then
evaluates the rule ladder in order — date rendering when the code contains
`y`, `m` or `d` case-insensitively, the value is positive, *and* the
resulting timestamp lies within the valid JavaScript `Date` range (outside
it, `isNaN(date)` makes the date rule fall through); else percent with
decimal places `max 0 (count of '0' − 1)`; else thousands grouping; else
fixed-point from the `.0+` run; else integer/General rendering — and
(date aside) a code matching an earlier rule never falls through.  In
particular `formatNumber(1234.5, 4) = "1,234.50"`,
`formatNumber(0.5, 9) = "50%"`, and `formatNumber(45292, 14)` renders
`"2024/1/1"`, the serial's calendar date 2024-01-01 under the 1900 system. -/
theorem formatNumber_spec :
    (∀ numFmts i s, numFmts i = some s → s ≠ "" →
      resolveFmtCode numFmts (some i) = s) ∧
    (∀ numFmts i s, numFmts i = none → builtInFmt i = some s → s ≠ "" →
      resolveFmtCode numFmts (some i) = s) ∧
    (∀ numFmts i, numFmts i = none → builtInFmt i = none →
      resolveFmtCode numFmts (some i) = "General") ∧
    (∀ numFmts (value : ℚ) fmtId,
      hasYMD (resolveFmtCode numFmts fmtId) = true → 0 < value →
      |(value - 25569) * 86400 * 1000| ≤ 8640000000000000 →
      formatNumber numFmts value fmtId =
        jsToLocaleDateZhCN ((value - 25569) * 86400 * 1000)) ∧
    (∀ numFmts (value : ℚ) fmtId,
      ¬(hasYMD (resolveFmtCode numFmts fmtId) = true ∧ 0 < value ∧
          |(value - 25569) * 86400 * 1000| ≤ 8640000000000000) →
      containsChar (resolveFmtCode numFmts fmtId) '%' = true →
      formatNumber numFmts value fmtId =
        toFixed (value * 100)
          (max 0 ((countZeros (resolveFmtCode numFmts fmtId) : ℤ) - 1)).toNat ++ "%") ∧
    (∀ numFmts (value : ℚ) fmtId,
      ¬(hasYMD (resolveFmtCode numFmts fmtId) = true ∧ 0 < value ∧
          |(value - 25569) * 86400 * 1000| ≤ 8640000000000000) →
      containsChar (resolveFmtCode numFmts fmtId) '%' = false →
      containsChar (resolveFmtCode numFmts fmtId) ',' = true →
      formatNumber numFmts value fmtId =
        toLocaleStringGrouped value
          (max 0 ((dotZeroRunLen (resolveFmtCode numFmts fmtId) : ℤ) - 1)).toNat) ∧
    (∀ numFmts (value : ℚ) fmtId,
      ¬(hasYMD (resolveFmtCode numFmts fmtId) = true ∧ 0 < value ∧
          |(value - 25569) * 86400 * 1000| ≤ 8640000000000000) →
      containsChar (resolveFmtCode numFmts fmtId) '%' = false →
      containsChar (resolveFmtCode numFmts fmtId) ',' = false →
      dotZeroRunLen (resolveFmtCode numFmts fmtId) ≠ 0 →
      formatNumber numFmts value fmtId =
        toFixed value (dotZeroRunLen (resolveFmtCode numFmts fmtId) - 1)) ∧
    (∀ numFmts (value : ℚ) fmtId,
      ¬(hasYMD (resolveFmtCode numFmts fmtId) = true ∧ 0 < value ∧
          |(value - 25569) * 86400 * 1000| ≤ 8640000000000000) →
      containsChar (resolveFmtCode numFmts fmtId) '%' = false →
      containsChar (resolveFmtCode numFmts fmtId) ',' = false →
      dotZeroRunLen (resolveFmtCode numFmts fmtId) = 0 →
      value.den = 1 →
      formatNumber numFmts value fmtId = toString value.num) ∧
    (∀ numFmts (value : ℚ) fmtId,
      ¬(hasYMD (resolveFmtCode numFmts fmtId) = true ∧ 0 < value ∧
          |(value - 25569) * 86400 * 1000| ≤ 8640000000000000) →
      containsChar (resolveFmtCode numFmts fmtId) '%' = false →
      containsChar (resolveFmtCode numFmts fmtId) ',' = false →
      dotZeroRunLen (resolveFmtCode numFmts fmtId) = 0 →
      value.den ≠ 1 →
      formatNumber numFmts value fmtId = generalRender value) ∧
    (formatNumber (fun _ => none) (2469/2 : ℚ) (some 4) = "1,234.50") ∧
    (formatNumber (fun _ => none) (1/2 : ℚ) (some 9) = "50%") ∧
    (formatNumber (fun _ => none) (45292 : ℚ) (some 14) = "2024/1/1") ∧
    (civilFromDays 19723 = (2024, 1, 1)) := by
  refine ⟨?_, ?_, ?_, ?_, ?_, ?_, ?_, ?_, ?_, by decide, by decide, by decide, by decide⟩
  · intro nf i s h hne
    simp [resolveFmtCode, jsOrStr, jsStrTruthy, h, hne]
  · intro nf i s h hb hne
    simp [resolveFmtCode, jsOrStr, jsStrTruthy, h, hb, hne]
  · intro nf i h hb
    simp [resolveFmtCode, jsOrStr, jsStrTruthy, h, hb]
  · intro nf v fid h1 h2 h3
    simp only [formatNumber]
    rw [if_pos ⟨h1, h2, h3⟩]
  · intro nf v fid hnd hp
    simp only [formatNumber]
    rw [if_neg hnd, if_pos hp]
  · intro nf v fid hnd hp hc
    simp only [formatNumber]
    rw [if_neg hnd, if_neg (by simp [hp]), if_pos hc]
  · intro nf v fid hnd hp hc hr
    simp only [formatNumber]
    rw [if_neg hnd, if_neg (by simp [hp]), if_neg (by simp [hc]), if_pos hr]
  · intro nf v fid hnd hp hc hr hden
    simp only [formatNumber]
    rw [if_neg hnd, if_neg (by simp [hp]), if_neg (by simp [hc]),
      if_neg (by simp [hr]), if_pos hden]
  · intro nf v fid hnd hp hc hr hden
    simp only [formatNumber]
    rw [if_neg hnd, if_neg (by simp [hp]), if_neg (by simp [hc]),
      if_neg (by simp [hr]), if_neg hden]

/-- Witness for C1: the date rule applied at serial 45292 with the built-in
`yyyy/m/d` format. -/
theorem formatNumber_spec_witness :
    formatNumber (fun _ => none) (45292 : ℚ) (some 14) =
      jsToLocaleDateZhCN (((45292 : ℚ) - 25569) * 86400 * 1000) :=
  formatNumber_spec.2.2.2.1 (fun _ => none) 45292 (some 14)
    (by decide) (by decide) (by decide)

end Office
